import Mathlib

/-!
Verification development for the farm-miniapp storefront core
(src/src/App.tsx, the main variant, plus the api/order.js proxy).

The TypeScript is shallowly embedded: the cart is an association list
keyed by product id (modelling the JS object `Record<string, CartItem>`),
JS numbers used for quantities and prices are modelled as `Int`, and a
computation that would throw a `TypeError` at runtime (reading `.price`
of an `undefined` product snapshot) is modelled as `none`.
-/

namespace Farm

/-- Product record, App.tsx lines 4-13. -/
structure Product where
  id : String
  category : String
  name : String
  unit : String
  price : Int
  sort : Int
  description : Option String
  image : Option String
deriving DecidableEq, Repr

/-- Cart entry, App.tsx lines 15-18.  The TS type promises a `Product`
snapshot, but at runtime `setQty` can create an entry without one
(spread of `undefined` at line 229), so the snapshot is an `Option`. -/
structure CartItem where
  product : Option Product
  qty : Int
deriving DecidableEq, Repr

/-- The cart state `Record<string, CartItem>` (App.tsx line 98), as an
association list from product id to entry; JS objects keep one entry
per key, and key update replaces in place while a new key is appended. -/
abbrev Cart : Type := List (String × CartItem)

/-- JS object read `cart[productId]`. -/
def cartGet (c : Cart) (id : String) : Option CartItem :=
  match c with
  | [] => none
  | e :: rest => if e.1 == id then some e.2 else cartGet rest id

/-- JS object write `next[id] = v`: replace the entry in place when the
key exists, append otherwise. -/
def cartSet (c : Cart) (id : String) (v : CartItem) : Cart :=
  match c with
  | [] => [(id, v)]
  | e :: rest => if e.1 == id then (id, v) :: rest else e :: cartSet rest id v

/-- JS object delete `delete next[productId]` (App.tsx line 228). -/
def cartDelete (c : Cart) (id : String) : Cart :=
  c.filter (fun e => !(e.1 == id))

/-- `Object.values(cart)` (App.tsx line 201). -/
def cartItems (c : Cart) : List CartItem :=
  c.map (fun e => e.2)

/-- `addToCart` (App.tsx lines 215-223): `next[p.id] = { product: p, qty: (cur?.qty || 0) + 1 }`.
Over `Int`, `x || 0` coincides with `x`, so the read is `getD 0`. -/
def addToCart (c : Cart) (p : Product) : Cart :=
  let cur := cartGet c p.id
  cartSet c p.id { product := some p, qty := (cur.map (fun it => it.qty)).getD 0 + 1 }

/-- `setQty` (App.tsx lines 225-232): delete when `qty <= 0`, otherwise
`next[productId] = { ...next[productId], qty }` — the spread keeps the
existing snapshot when the entry exists and yields no snapshot otherwise. -/
def setQty (c : Cart) (productId : String) (qty : Int) : Cart :=
  if qty ≤ 0 then cartDelete c productId
  else cartSet c productId { product := (cartGet c productId).bind (fun it => it.product), qty := qty }

/-- `setCart({})` (App.tsx line 291). -/
def clearCart (_ : Cart) : Cart := []

/-- One mutation of the cart through its public interface. -/
inductive CartOp where
  | add (p : Product)
  | set (productId : String) (qty : Int)
  | clear
deriving Repr

def applyOp (c : Cart) : CartOp → Cart
  | CartOp.add p => addToCart c p
  | CartOp.set id q => setQty c id q
  | CartOp.clear => clearCart c

/-- A sequence of cart mutations starting from the empty cart. -/
def runOps (ops : List CartOp) : Cart :=
  ops.foldl applyOp []

/-- `DELIVERY_FEE` (App.tsx line 43). -/
def DELIVERY_FEE : Int := 200

/-- `FREE_DELIVERY_FROM` (App.tsx line 44). -/
def FREE_DELIVERY_FROM : Int := 2000

/-- One summand of the `total` reduce: `it.qty * it.product.price`
(App.tsx line 205); `none` models the TypeError thrown when the entry
has no product snapshot. -/
def lineTotal (it : CartItem) : Option Int :=
  it.product.map (fun p => it.qty * p.price)

/-- `total` (App.tsx line 205): `cartItems.reduce((s, it) => s + it.qty * it.product.price, 0)`. -/
def total (c : Cart) : Option Int :=
  (cartItems c).foldl (fun s it => s.bind (fun x => (lineTotal it).map (fun y => x + y))) (some 0)

/-- `delivery` (App.tsx lines 208-211) as a function of the subtotal. -/
def delivery (t : Int) : Int :=
  if t ≤ 0 then 0 else if t < FREE_DELIVERY_FROM then DELIVERY_FEE else 0

/-- `grandTotal` (App.tsx line 213) as a function of the subtotal. -/
def grandTotal (t : Int) : Int :=
  t + delivery t

/-- Reference subtotal, following the spec sentence
"subtotal(cart) = Σ (entry.quantity × entry.product.price) over all entries";
for an entry without a snapshot the price reads as 0, a case the
refinement theorem excludes by hypothesis. -/
def subtotalSpec (c : Cart) : Int :=
  ((cartItems c).map (fun it => it.qty * ((it.product.map Product.price).getD 0))).sum

/-- JS `String.prototype.trim()`: drop leading and trailing whitespace.
Written over the character list by structural recursion so that concrete
witnesses evaluate inside the kernel. -/
def jsTrim (s : String) : String :=
  String.mk (((s.data.dropWhile Char.isWhitespace).reverse.dropWhile Char.isWhitespace).reverse)

/-- Message returned when the trimmed name is shorter than 2 (App.tsx line 239). -/
def nameErrorMsg : String := "Укажи имя (минимум 2 символа)."

/-- Message returned when the trimmed phone is shorter than 6 (App.tsx line 240). -/
def phoneErrorMsg : String := "Укажи телефон (минимум 6 символов)."

/-- Message returned when the trimmed address is shorter than 5 (App.tsx line 241). -/
def addressErrorMsg : String := "Укажи адрес доставки (минимум 5 символов)."

/-- Message returned when the cart is empty (App.tsx line 242). -/
def cartEmptyErrorMsg : String := "Корзина пустая."

/-- `validateCheckout` (App.tsx lines 238-244). -/
def validateCheckout (customerName phone address : String) (cart : Cart) : Option String :=
  if (jsTrim customerName).length < 2 then some nameErrorMsg
  else if (jsTrim phone).length < 6 then some phoneErrorMsg
  else if (jsTrim address).length < 5 then some addressErrorMsg
  else if (cartItems cart).length = 0 then some cartEmptyErrorMsg
  else none

/-- Telegram user as read by `getTgUser` (App.tsx lines 20-25). -/
structure TgUser where
  id : Option Int
  username : Option String
  first_name : Option String
  last_name : Option String
deriving DecidableEq, Repr

/-- A JS exception value as observed by the catch blocks: its `name`
and `message` fields. -/
structure JsError where
  name : String
  message : String
deriving DecidableEq, Repr

/-- The behaviour of one network round trip of body type `β`: how long
the server takes to answer and either a rejection (network failure,
abort) or a parsed response body. -/
structure NetBehavior (β : Type) where
  latencyMs : Nat
  outcome : Except JsError β

/-- The rejection produced when the `AbortController` of
`fetchWithTimeout` fires. -/
def abortError : JsError :=
  { name := "AbortError", message := "The user aborted a request." }

/-- `fetchWithTimeout` (App.tsx lines 74-84): the request is aborted
once `timeoutMs` elapses before the response arrives; otherwise the
network outcome is returned as is. -/
def fetchWithTimeout (timeoutMs : Nat) (net : NetBehavior β) : Except JsError β :=
  if timeoutMs ≤ net.latencyMs then Except.error abortError else net.outcome

/-- A plain `fetch` with no abort signal (App.tsx lines 278-282): the
latency never matters, the outcome is returned as is. -/
def fetchPlain (net : NetBehavior β) : Except JsError β :=
  net.outcome

/-- Parsed body of the order POST response as the code reads it:
`res.ok`, `res.status`, and `data?.error` after `res.json().catch(() => ({}))`;
an absent or unparseable error field is the empty string (JS falsy). -/
structure HttpResponse where
  ok : Bool
  status : Nat
  jsonError : String
deriving DecidableEq, Repr

/-- Parsed body of the catalog GET response: `data?.error` (empty string
when absent, JS falsy) and `data.products || []`. -/
structure ProductsResponse where
  error : String
  products : List Product
deriving Repr

/-- `normalizeImagePath` (App.tsx lines 64-71). -/
def normalizeImagePath (img : Option String) : Option String :=
  let s := jsTrim (img.getD "")
  if s = "" then none
  else if s.startsWith "http://" || s.startsWith "https://" then some s
  else if s.startsWith "/" then some s
  else if s.startsWith "public/" then some ("/" ++ s.drop 7)
  else some ("/" ++ s)

/-- `PRODUCTS_CACHE_TTL_MS` (App.tsx line 41). -/
def PRODUCTS_CACHE_TTL_MS : Int := 10 * 60 * 1000

/-- A cached catalog snapshot as returned by `loadProductsCache`
(App.tsx lines 46-56): a timestamp and the product list. -/
structure CachedCatalog where
  ts : Int
  products : List Product
deriving Repr

/-- The catalog-related component state touched by the load effect:
`products`, `loading`, `loadingHint`, `error` (App.tsx lines 89-94). -/
structure CatalogState where
  products : List Product
  loading : Bool
  loadingHint : String
  error : String
deriving Repr

/-- Hint shown while refreshing over a fresh cache (App.tsx line 154). -/
def refreshHint : String := "Обновляем ассортимент…"

/-- Error message used when the catalog fetch was aborted (App.tsx line 178). -/
def slowServerMsg : String := "Сервер долго отвечает. Попробуйте ещё раз."

/-- Fallback catalog error message (App.tsx line 178). -/
def genericLoadErrorMsg : String := "Ошибка загрузки товаров"

/-- The catalog load effect (App.tsx lines 140-188) run to completion
at mount: read the cache, show it when fresh, then fetch with an 8000 ms
timeout; on success store the normalized list, on any throw set the
error message.  `cache` is what `loadProductsCache()` returned and `now`
is `Date.now()`. -/
def catalogLoadEffect (cache : Option CachedCatalog) (now : Int)
    (net : NetBehavior ProductsResponse) : CatalogState :=
  let s0 : CatalogState := { products := [], loading := true, loadingHint := "", error := "" }
  let s1 :=
    match cache with
    | some cc =>
        if now - cc.ts < PRODUCTS_CACHE_TTL_MS then
          { s0 with products := cc.products, loading := false, loadingHint := refreshHint }
        else s0
    | none => s0
  match fetchWithTimeout 8000 net with
  | Except.error e =>
      let msg := if e.name = "AbortError" then slowServerMsg
        else if e.message = "" then genericLoadErrorMsg else e.message
      { s1 with error := msg, loading := false, loadingHint := "" }
  | Except.ok data =>
      if data.error ≠ "" then
        { s1 with error := data.error, loading := false, loadingHint := "" }
      else
        let list := data.products.map (fun p => { p with image := normalizeImagePath p.image })
        { s1 with products := list, loading := false, loadingHint := "" }

/-- Render guard `{error && ...}` (App.tsx line 348): the load error is
surfaced exactly when `error` is truthy. -/
def errorSurfaced (s : CatalogState) : Bool :=
  !(s.error == "")

/-- Render guard `{!loading && !error && (...)}` (App.tsx line 350):
the catalog/cart/checkout content, including the product list, is
rendered only when there is no error. -/
def contentRendered (s : CatalogState) : Bool :=
  !s.loading && s.error == ""

/-- `API_TOKEN` (App.tsx line 87): a constant hardcoded in the client source. -/
def API_TOKEN : String := "Kjhytccb18@"

/-- One line item of the order payload (App.tsx lines 262-269). -/
structure OrderItem where
  id : String
  name : String
  unit : String
  price : Int
  qty : Int
  sum : Int
deriving DecidableEq, Repr

/-- The order payload (App.tsx lines 255-273).  `tg := none` models the
`tg || {}` fallback for an anonymous user. -/
structure OrderPayload where
  token : String
  tg : Option TgUser
  name : String
  phone : String
  address : String
  comment : String
  items : List OrderItem
  total : Int
  delivery : Int
  grandTotal : Int
deriving DecidableEq, Repr

/-- One item of `cartItems.map(...)` (App.tsx lines 262-269); reading
`it.product.id` of a missing snapshot throws, modelled as `none`. -/
def toOrderItem (it : CartItem) : Option OrderItem :=
  it.product.map (fun p =>
    { id := p.id, name := p.name, unit := p.unit, price := p.price,
      qty := it.qty, sum := it.qty * p.price })

/-- `cartItems.map(...)` over the line items (App.tsx lines 262-269),
propagating the TypeError of a missing snapshot. -/
def mapOrderItems : List CartItem → Option (List OrderItem)
  | [] => some []
  | it :: rest => (toOrderItem it).bind (fun oi => (mapOrderItems rest).map (fun l => oi :: l))

/-- The payload construction of `submitOrder` (App.tsx lines 253-273);
`none` models the TypeError thrown while reading a missing product
snapshot, in the line items or in the `total` memo. -/
def buildPayload (tg : Option TgUser) (customerName phone address comment : String)
    (c : Cart) : Option OrderPayload :=
  (mapOrderItems (cartItems c)).bind (fun items =>
    (total c).bind (fun t =>
      some { token := API_TOKEN, tg := tg,
             name := jsTrim customerName, phone := jsTrim phone,
             address := jsTrim address, comment := jsTrim comment,
             items := items, total := t, delivery := delivery t,
             grandTotal := grandTotal t }))

/-- Toast kinds (App.tsx line 38). -/
inductive ToastType where
  | error
  | success
  | info
deriving DecidableEq, Repr

/-- A toast (App.tsx line 38). -/
structure Toast where
  type : ToastType
  text : String
deriving DecidableEq, Repr

/-- The three tabs (App.tsx line 96). -/
inductive Tab where
  | catalog
  | cart
  | checkout
deriving DecidableEq, Repr

/-- The component state touched by `submitOrder` (App.tsx lines 98-106). -/
structure AppState where
  cart : Cart
  address : String
  comment : String
  customerName : String
  phone : String
  sending : Bool
  toast : Option Toast
  tab : Tab
deriving DecidableEq, Repr

/-- Success toast text (App.tsx line 289). -/
def submitSuccessMsg : String := "✅ Заказ отправлен! Мы свяжемся для подтверждения."

/-- Failure toast text (App.tsx line 298). -/
def submitFailMsg (m : String) : String :=
  "Не удалось отправить заказ: " ++ m

/-- The error `submitOrder` derives from an arrived response
(App.tsx lines 284-287): a non-ok status throws
`data?.error || HTTP <status>`, then a response-level `error` field
throws; otherwise the submission succeeded. -/
def responseError (res : HttpResponse) : Option String :=
  if !res.ok then some (if res.jsonError ≠ "" then res.jsonError else "HTTP " ++ toString res.status)
  else if res.jsonError ≠ "" then some res.jsonError
  else none

/-- Result of running `submitOrder`: the new component state and the
number of order POST requests that were performed. -/
structure SubmitResult where
  state : AppState
  requests : Nat
deriving DecidableEq, Repr

/-- `submitOrder` (App.tsx lines 246-302) run to completion against a
given network behaviour.  Validation failure returns before any network
work; a TypeError while building the payload propagates out of the
handler with the state unchanged; otherwise one plain `fetch` (no
timeout) is performed, the catch branch only sets a toast, and the
success branch clears the cart, resets the form fields and returns to
the catalog tab; `finally` resets `sending`. -/
def submitOrder (s : AppState) (tg : Option TgUser) (net : NetBehavior HttpResponse) :
    SubmitResult :=
  match validateCheckout s.customerName s.phone s.address s.cart with
  | some validationError =>
      { state := { s with toast := some (Toast.mk ToastType.error validationError) },
        requests := 0 }
  | none =>
      match buildPayload tg s.customerName s.phone s.address s.comment s.cart with
      | none => { state := s, requests := 0 }
      | some _payload =>
          let s1 := { s with sending := true }
          match fetchPlain net with
          | Except.error e =>
              let msg := submitFailMsg (if e.message = "" then "Ошибка" else e.message)
              { state := { s1 with toast := some (Toast.mk ToastType.error msg), sending := false },
                requests := 1 }
          | Except.ok res =>
              match responseError res with
              | some m =>
                  { state := { s1 with toast := some (Toast.mk ToastType.error (submitFailMsg m)), sending := false },
                    requests := 1 }
              | none =>
                  let s2 := { s1 with toast := some (Toast.mk ToastType.success submitSuccessMsg) }
                  let s3 := { s2 with cart := ([] : Cart), address := "", comment := "" }
                  let s4 := { s3 with customerName := "", phone := "", tab := Tab.catalog }
                  { state := { s4 with sending := false }, requests := 1 }

/-- `disabled={sending}` on the submit button (App.tsx line 560). -/
def submitButtonDisabled (sending : Bool) : Bool :=
  sending

/-- The submission-concurrency view of the UI: the `sending` flag and
the number of in-flight order submissions. -/
structure SubmitUiState where
  sending : Bool
  pending : Nat
deriving DecidableEq, Repr

/-- One UI transition of the submission lifecycle (App.tsx lines
246-302 and 553-563).  A click can fire only while the submit button is
not disabled; a click that passes validation sets `sending` and
dispatches exactly one request; a click rejected by validation (or
crashing while building the payload) dispatches nothing; a settling
request runs the response/catch branch and the `finally` reset of
`sending` before any further click can be processed. -/
inductive SubmitStep : SubmitUiState → SubmitUiState → Prop
  | clickStarts (s : SubmitUiState) (h : submitButtonDisabled s.sending = false) :
      SubmitStep s { sending := true, pending := s.pending + 1 }
  | clickRejected (s : SubmitUiState) (h : submitButtonDisabled s.sending = false) :
      SubmitStep s s
  | settle (s : SubmitUiState) (h : 0 < s.pending) :
      SubmitStep s { sending := false, pending := s.pending - 1 }

/-- States reachable from the initial UI state (`sending` false, no
request in flight, App.tsx line 106). -/
inductive SubmitReachable : SubmitUiState → Prop
  | init : SubmitReachable { sending := false, pending := 0 }
  | step {s t : SubmitUiState} : SubmitReachable s → SubmitStep s t → SubmitReachable t

/-- The environment of the Vercel proxy (api/order.js lines 3-4). -/
structure ServerEnv where
  GS_API_URL : Option String
  GS_API_TOKEN : Option String
deriving DecidableEq, Repr

/-- The body the proxy forwards upstream (api/order.js lines 31-46):
with both env vars present it overwrites `body.token` with the
environment secret before forwarding; otherwise it answers 500 and
forwards nothing. -/
def handlerForwardedBody (env : ServerEnv) (body : OrderPayload) : Option OrderPayload :=
  match env.GS_API_URL, env.GS_API_TOKEN with
  | some _, some tok => some { body with token := tok }
  | _, _ => none

/-- A sample product for concrete witnesses. -/
def sampleProduct : Product :=
  { id := "P1", category := "Овощи", name := "Морковь", unit := "кг",
    price := 500, sort := 1, description := none, image := none }

/-- A sample one-entry cart holding two units of `sampleProduct`. -/
def sampleCart : Cart :=
  [(sampleProduct.id, { product := some sampleProduct, qty := 2 })]

/-- A sample checkout state over `sampleCart` that passes validation. -/
def sampleState : AppState :=
  { cart := sampleCart, address := "улица Ленина, 5", comment := "",
    customerName := "Иван", phone := "79990001122", sending := false,
    toast := none, tab := Tab.checkout }

theorem mem_cartSet {e : String × CartItem} :
    ∀ {c : Cart} {id : String} {v : CartItem}, e ∈ cartSet c id v → e ∈ c ∨ e = (id, v) := by
  intro c
  induction c with
  | nil =>
    intro id v h
    simp only [cartSet, List.mem_singleton] at h
    exact Or.inr h
  | cons a rest ih =>
    intro id v h
    simp only [cartSet] at h
    split at h
    · rcases List.mem_cons.mp h with h1 | h1
      · exact Or.inr h1
      · exact Or.inl (List.mem_cons_of_mem _ h1)
    · rcases List.mem_cons.mp h with h1 | h1
      · exact Or.inl (h1 ▸ List.mem_cons_self _ _)
      · rcases ih h1 with h2 | h2
        · exact Or.inl (List.mem_cons_of_mem _ h2)
        · exact Or.inr h2

theorem cartGet_cartSet_self :
    ∀ (c : Cart) (id : String) (v : CartItem), cartGet (cartSet c id v) id = some v := by
  intro c
  induction c with
  | nil =>
    intro id v
    simp [cartSet, cartGet]
  | cons a rest ih =>
    intro id v
    simp only [cartSet]
    by_cases h : a.1 == id
    · simp [h, cartGet]
    · simp only [if_neg h, cartGet, h]
      exact ih id v

theorem cartGet_mem :
    ∀ {c : Cart} {id : String} {it : CartItem}, cartGet c id = some it → it ∈ cartItems c := by
  intro c
  induction c with
  | nil => intro id it h; simp [cartGet] at h
  | cons a rest ih =>
    intro id it h
    simp only [cartGet] at h
    split at h
    · simp only [Option.some.injEq] at h
      exact h ▸ List.mem_map_of_mem _ (List.mem_cons_self _ _)
    · exact List.mem_cons_of_mem _ (ih h)

theorem cartDelete_of_absent :
    ∀ {c : Cart} {id : String}, cartGet c id = none → cartDelete c id = c := by
  intro c
  induction c with
  | nil => intro id _; rfl
  | cons a rest ih =>
    intro id h
    simp only [cartGet] at h
    split at h
    · exact absurd h (by simp)
    · rename_i hne
      simp only [cartDelete, List.filter_cons]
      rw [if_pos (by simp_all)]
      have hrest := ih h
      simp only [cartDelete] at hrest
      rw [hrest]

theorem applyOp_qty_pos {c : Cart} (h : ∀ it ∈ cartItems c, 0 < it.qty) (op : CartOp) :
    ∀ it ∈ cartItems (applyOp c op), 0 < it.qty := by
  intro it hit
  cases op with
  | add p =>
    simp only [applyOp, addToCart] at hit
    rcases List.mem_map.mp hit with ⟨e, he, rfl⟩
    rcases mem_cartSet he with h1 | h1
    · exact h _ (List.mem_map_of_mem _ h1)
    · subst h1
      cases hg : cartGet c p.id with
      | none => simp [hg]
      | some it0 =>
        have h0 := h _ (cartGet_mem hg)
        simp only [hg]
        show 0 < it0.qty + 1
        omega
  | set id q =>
    simp only [applyOp, setQty] at hit
    split at hit
    · rename_i hq
      simp only [cartDelete, cartItems] at hit
      rcases List.mem_map.mp hit with ⟨e, he, rfl⟩
      exact h _ (List.mem_map_of_mem _ (List.mem_of_mem_filter he))
    · rename_i hq
      rcases List.mem_map.mp hit with ⟨e, he, rfl⟩
      rcases mem_cartSet he with h1 | h1
      · exact h _ (List.mem_map_of_mem _ h1)
      · subst h1
        show 0 < q
        omega
  | clear => simp [applyOp, clearCart, cartItems] at hit

theorem foldl_applyOp_qty_pos :
    ∀ (ops : List CartOp) (c : Cart), (∀ it ∈ cartItems c, 0 < it.qty) →
      ∀ it ∈ cartItems (ops.foldl applyOp c), 0 < it.qty := by
  intro ops
  induction ops with
  | nil => intro c h; simpa using h
  | cons op rest ih =>
    intro c h
    exact ih _ (applyOp_qty_pos h op)

/-- C1.  Cart quantity invariant: every cart reachable from the empty
cart through the public mutations (`addToCart`, `setQty` — including
removal via a non-positive quantity — and clearing) holds only entries
with positive quantity; `setQty` with a non-positive quantity on an
absent entry is a no-op; and the entry `addToCart` writes always has
quantity at least 1. -/
theorem cart_quantity_invariant :
    (∀ ops : List CartOp, ∀ it ∈ cartItems (runOps ops), 0 < it.qty)
    ∧ (∀ (c : Cart) (id : String) (q : Int), q ≤ 0 → cartGet c id = none → setQty c id q = c)
    ∧ (∀ (c : Cart) (p : Product), (∀ it ∈ cartItems c, 0 < it.qty) →
        ∀ it : CartItem, cartGet (addToCart c p) p.id = some it → 1 ≤ it.qty) := by
  refine ⟨?_, ?_, ?_⟩
  · intro ops
    exact foldl_applyOp_qty_pos ops [] (by simp [cartItems])
  · intro c id q hq habs
    simp only [setQty, if_pos hq]
    exact cartDelete_of_absent habs
  · intro c p hc it hget
    simp only [addToCart] at hget
    rw [cartGet_cartSet_self] at hget
    cases hget
    cases hg : cartGet c p.id with
    | none => simp [hg]
    | some it0 =>
      have h0 := hc _ (cartGet_mem hg)
      simp only [hg]
      show 1 ≤ it0.qty + 1
      omega

/-- Witness for C1 at concrete inputs:  `setQty` with quantity 0 on the
absent id leaves the singleton cart unchanged, and the entry `addToCart`
writes into the empty cart has quantity 1. -/
theorem cart_quantity_invariant_witness :
    setQty sampleCart "absent" 0 = sampleCart
    ∧ (1 : Int) ≤ (CartItem.mk (some sampleProduct) 1).qty :=
  ⟨cart_quantity_invariant.2.1 sampleCart "absent" 0 (by decide) (by decide),
   cart_quantity_invariant.2.2 [] sampleProduct (by simp [cartItems])
     (CartItem.mk (some sampleProduct) 1) (by decide)⟩

theorem foldl_lineTotal_eq_sum :
    ∀ (l : List CartItem) (a : Int), (∀ it ∈ l, it.product.isSome) →
      l.foldl (fun s it => s.bind (fun x => (lineTotal it).map (fun y => x + y))) (some a)
        = some (a + (l.map (fun it => it.qty * ((it.product.map Product.price).getD 0))).sum) := by
  intro l
  induction l with
  | nil => intro a _; simp
  | cons it rest ih =>
    intro a h
    obtain ⟨p, hp⟩ := Option.isSome_iff_exists.mp (h it (List.mem_cons_self _ _))
    simp only [List.foldl_cons, List.map_cons, List.sum_cons]
    have hstep : (some a).bind (fun x => (lineTotal it).map (fun y => x + y))
        = some (a + it.qty * ((it.product.map Product.price).getD 0)) := by
      simp [lineTotal, hp]
    rw [hstep, ih _ (fun x hx => h x (List.mem_cons_of_mem _ hx))]
    congr 1
    ring

/-- C2.  The pricing calculator meets its reference definition: for
every cart whose entries carry a product snapshot, `total` is the sum of
quantity times unit price over all entries; the delivery fee is 200 for
subtotals strictly between 0 and 2000 and 0 at 0 or at and beyond 2000
(in particular at 0, 1999, 2000, 2001); and the grand total is the
subtotal plus the delivery fee. -/
theorem pricing_matches_reference :
    (∀ c : Cart, (∀ it ∈ cartItems c, it.product.isSome) → total c = some (subtotalSpec c))
    ∧ (∀ t : Int, 0 < t → t < 2000 → delivery t = 200)
    ∧ delivery 0 = 0
    ∧ (∀ t : Int, 2000 ≤ t → delivery t = 0)
    ∧ delivery 1999 = 200 ∧ delivery 2000 = 0 ∧ delivery 2001 = 0
    ∧ (∀ t : Int, grandTotal t = t + delivery t) := by
  refine ⟨?_, ?_, by decide, ?_, by decide, by decide, by decide, fun t => rfl⟩
  · intro c h
    simpa using foldl_lineTotal_eq_sum (cartItems c) 0 h
  · intro t h0 h1
    simp only [delivery, FREE_DELIVERY_FROM, DELIVERY_FEE]
    rw [if_neg (by omega), if_pos (by omega)]
  · intro t h
    simp only [delivery, FREE_DELIVERY_FROM, DELIVERY_FEE]
    rw [if_neg (by omega), if_neg (by omega)]

/-- Witness for C2 at concrete inputs: the two-unit sample cart totals
1000, the delivery fee at 1000 is 200, and 2500 ships free. -/
theorem pricing_matches_reference_witness :
    total sampleCart = some (subtotalSpec sampleCart)
    ∧ delivery 1000 = 200 ∧ delivery 2500 = 0 :=
  ⟨pricing_matches_reference.1 sampleCart (by decide),
   pricing_matches_reference.2.1 1000 (by decide) (by decide),
   pricing_matches_reference.2.2.2.1 2500 (by decide)⟩

/-- C3.  Checkout validation checks its four rules in a fixed order and
reports the first failing one: a trimmed name shorter than 2 wins over
everything; then a trimmed phone shorter than 6; then a trimmed address
shorter than 5; then the empty cart; and the result is `none` exactly
when all four rules hold. -/
theorem checkout_validation_order :
    (∀ (nm ph ad : String) (c : Cart), (jsTrim nm).length < 2 →
        validateCheckout nm ph ad c = some nameErrorMsg)
    ∧ (∀ (nm ph ad : String) (c : Cart), 2 ≤ (jsTrim nm).length → (jsTrim ph).length < 6 →
        validateCheckout nm ph ad c = some phoneErrorMsg)
    ∧ (∀ (nm ph ad : String) (c : Cart), 2 ≤ (jsTrim nm).length → 6 ≤ (jsTrim ph).length →
        (jsTrim ad).length < 5 → validateCheckout nm ph ad c = some addressErrorMsg)
    ∧ (∀ (nm ph ad : String) (c : Cart), 2 ≤ (jsTrim nm).length → 6 ≤ (jsTrim ph).length →
        5 ≤ (jsTrim ad).length → cartItems c = [] →
        validateCheckout nm ph ad c = some cartEmptyErrorMsg)
    ∧ (∀ (nm ph ad : String) (c : Cart), 2 ≤ (jsTrim nm).length → 6 ≤ (jsTrim ph).length →
        5 ≤ (jsTrim ad).length → cartItems c ≠ [] →
        validateCheckout nm ph ad c = none) := by
  refine ⟨?_, ?_, ?_, ?_, ?_⟩
  · intro nm ph ad c h
    simp only [validateCheckout]
    rw [if_pos h]
  · intro nm ph ad c h1 h2
    simp only [validateCheckout]
    rw [if_neg (by omega), if_pos h2]
  · intro nm ph ad c h1 h2 h3
    simp only [validateCheckout]
    rw [if_neg (by omega), if_neg (by omega), if_pos h3]
  · intro nm ph ad c h1 h2 h3 h4
    simp only [validateCheckout]
    rw [if_neg (by omega), if_neg (by omega), if_neg (by omega),
      if_pos (by simp [h4])]
  · intro nm ph ad c h1 h2 h3 h4
    simp only [validateCheckout]
    rw [if_neg (by omega), if_neg (by omega), if_neg (by omega),
      if_neg (by rw [List.length_eq_zero]; exact h4)]

/-- Witness for C3 at concrete inputs: with a one-character name, a
valid phone, a valid address and a non-empty cart the reported failure
is the name rule, and the fully valid sample passes. -/
theorem checkout_validation_order_witness :
    validateCheckout "A" "79990001122" "улица Ленина, 5" sampleCart = some nameErrorMsg
    ∧ validateCheckout "Иван" "79990001122" "улица Ленина, 5" sampleCart = none :=
  ⟨checkout_validation_order.1 "A" "79990001122" "улица Ленина, 5" sampleCart (by decide),
   checkout_validation_order.2.2.2.2 "Иван" "79990001122" "улица Ленина, 5" sampleCart
     (by decide) (by decide) (by decide) (by decide)⟩

/-- A sample checkout state whose cart is empty. -/
def emptyCartState : AppState :=
  { sampleState with cart := ([] : Cart) }

/-- The payload `submitOrder` builds from `sampleState`. -/
def samplePayload : OrderPayload :=
  { token := API_TOKEN, tg := none, name := "Иван", phone := "79990001122",
    address := "улица Ленина, 5", comment := "",
    items := [{ id := "P1", name := "Морковь", unit := "кг", price := 500, qty := 2, sum := 1000 }],
    total := 1000, delivery := 200, grandTotal := 1200 }

/-- C4.  Order submission is gated by validation: whenever the checkout
validator fails, `submitOrder` only reports that validation error as a
toast and performs no network request, and a network request can only
have been performed when validation returned no error. -/
theorem submission_gated_by_validation :
    (∀ (s : AppState) (tg : Option TgUser) (net : NetBehavior HttpResponse) (e : String),
        validateCheckout s.customerName s.phone s.address s.cart = some e →
        submitOrder s tg net
          = { state := { s with toast := some (Toast.mk ToastType.error e) }, requests := 0 })
    ∧ (∀ (s : AppState) (tg : Option TgUser) (net : NetBehavior HttpResponse),
        1 ≤ (submitOrder s tg net).requests →
        validateCheckout s.customerName s.phone s.address s.cart = none) := by
  refine ⟨?_, ?_⟩
  · intro s tg net e h
    simp only [submitOrder, h]
  · intro s tg net h
    cases hv : validateCheckout s.customerName s.phone s.address s.cart with
    | none => rfl
    | some e =>
      simp only [submitOrder, hv] at h
      omega

/-- Witness for C4 at a concrete input: with the empty cart the result
is the empty-cart validation toast and zero network requests. -/
theorem submission_gated_by_validation_witness :
    submitOrder emptyCartState none ⟨50, Except.ok ⟨true, 200, ""⟩⟩
      = { state := { emptyCartState with
            toast := some (Toast.mk ToastType.error cartEmptyErrorMsg) },
          requests := 0 } :=
  submission_gated_by_validation.1 emptyCartState none ⟨50, Except.ok ⟨true, 200, ""⟩⟩
    cartEmptyErrorMsg (by decide)

/-- C5.  Submission atomicity: when validation passes and the payload is
built, a submission that fails (rejected fetch, non-ok status or a
response-level error) leaves the cart and every form field exactly as
they were, while a successful submission clears the cart, resets all
form fields and returns to the catalog tab; `sending` is reset either
way. -/
theorem submission_atomicity :
    ∀ (s : AppState) (tg : Option TgUser) (net : NetBehavior HttpResponse) (pl : OrderPayload),
      validateCheckout s.customerName s.phone s.address s.cart = none →
      buildPayload tg s.customerName s.phone s.address s.comment s.cart = some pl →
      (∀ e : JsError, fetchPlain net = Except.error e →
          (submitOrder s tg net).state.cart = s.cart
          ∧ (submitOrder s tg net).state.address = s.address
          ∧ (submitOrder s tg net).state.comment = s.comment
          ∧ (submitOrder s tg net).state.customerName = s.customerName
          ∧ (submitOrder s tg net).state.phone = s.phone
          ∧ (submitOrder s tg net).state.sending = false)
      ∧ (∀ res : HttpResponse, fetchPlain net = Except.ok res → responseError res ≠ none →
          (submitOrder s tg net).state.cart = s.cart
          ∧ (submitOrder s tg net).state.address = s.address
          ∧ (submitOrder s tg net).state.comment = s.comment
          ∧ (submitOrder s tg net).state.customerName = s.customerName
          ∧ (submitOrder s tg net).state.phone = s.phone
          ∧ (submitOrder s tg net).state.sending = false)
      ∧ (∀ res : HttpResponse, fetchPlain net = Except.ok res → responseError res = none →
          (submitOrder s tg net).state.cart = ([] : Cart)
          ∧ (submitOrder s tg net).state.address = ""
          ∧ (submitOrder s tg net).state.comment = ""
          ∧ (submitOrder s tg net).state.customerName = ""
          ∧ (submitOrder s tg net).state.phone = ""
          ∧ (submitOrder s tg net).state.tab = Tab.catalog
          ∧ (submitOrder s tg net).state.sending = false) := by
  intro s tg net pl hv hb
  refine ⟨?_, ?_, ?_⟩
  · intro e hf
    simp [submitOrder, hv, hb, hf]
  · intro res hf hre
    rcases hm : responseError res with _ | m
    · exact absurd hm hre
    · simp [submitOrder, hv, hb, hf, hm]
  · intro res hf hre
    simp [submitOrder, hv, hb, hf, hre]

/-- Witness for C5 at concrete inputs: a rejected fetch leaves the
sample state untouched, and a success clears the cart and the fields. -/
theorem submission_atomicity_witness :
    ((submitOrder sampleState none ⟨50, Except.error ⟨"TypeError", "Failed to fetch"⟩⟩).state.cart
        = sampleState.cart
      ∧ (submitOrder sampleState none ⟨50, Except.error ⟨"TypeError", "Failed to fetch"⟩⟩).state.address
        = sampleState.address
      ∧ (submitOrder sampleState none ⟨50, Except.error ⟨"TypeError", "Failed to fetch"⟩⟩).state.comment
        = sampleState.comment
      ∧ (submitOrder sampleState none ⟨50, Except.error ⟨"TypeError", "Failed to fetch"⟩⟩).state.customerName
        = sampleState.customerName
      ∧ (submitOrder sampleState none ⟨50, Except.error ⟨"TypeError", "Failed to fetch"⟩⟩).state.phone
        = sampleState.phone
      ∧ (submitOrder sampleState none ⟨50, Except.error ⟨"TypeError", "Failed to fetch"⟩⟩).state.sending
        = false)
    ∧ ((submitOrder sampleState none ⟨50, Except.ok ⟨true, 200, ""⟩⟩).state.cart = ([] : Cart)
      ∧ (submitOrder sampleState none ⟨50, Except.ok ⟨true, 200, ""⟩⟩).state.address = ""
      ∧ (submitOrder sampleState none ⟨50, Except.ok ⟨true, 200, ""⟩⟩).state.comment = ""
      ∧ (submitOrder sampleState none ⟨50, Except.ok ⟨true, 200, ""⟩⟩).state.customerName = ""
      ∧ (submitOrder sampleState none ⟨50, Except.ok ⟨true, 200, ""⟩⟩).state.phone = ""
      ∧ (submitOrder sampleState none ⟨50, Except.ok ⟨true, 200, ""⟩⟩).state.tab = Tab.catalog
      ∧ (submitOrder sampleState none ⟨50, Except.ok ⟨true, 200, ""⟩⟩).state.sending = false) :=
  ⟨(submission_atomicity sampleState none ⟨50, Except.error ⟨"TypeError", "Failed to fetch"⟩⟩
      samplePayload (by decide) (by decide)).1 ⟨"TypeError", "Failed to fetch"⟩ rfl,
   (submission_atomicity sampleState none ⟨50, Except.ok ⟨true, 200, ""⟩⟩
      samplePayload (by decide) (by decide)).2.2 ⟨true, 200, ""⟩ rfl (by decide)⟩

theorem submitReachable_inv :
    ∀ u : SubmitUiState, SubmitReachable u → u.pending ≤ 1 ∧ (u.pending = 1 → u.sending = true) := by
  intro u h
  induction h with
  | init => exact ⟨by decide, by intro h1; cases h1⟩
  | step hr hs ih =>
    rename_i s t
    cases hs with
    | clickStarts hdis =>
      refine ⟨?_, fun _ => rfl⟩
      by_cases hp : s.pending = 1
      · exfalso
        have hsend := ih.2 hp
        simp only [submitButtonDisabled] at hdis
        rw [hsend] at hdis
        exact absurd hdis (by decide)
      · have h1 := ih.1
        show s.pending + 1 ≤ 1
        omega
    | clickRejected hdis => exact ih
    | settle hp =>
      have h1 := ih.1
      refine ⟨?_, ?_⟩
      · show s.pending - 1 ≤ 1
        omega
      · intro hcontra
        exfalso
        have hc : s.pending - 1 = 1 := hcontra
        omega

/-- C8.  No duplicate submissions: in every UI state reachable from the
initial one at most one order submission is in flight, and while
`sending` holds (the submit button is disabled) no transition can start
another submission — `pending` never grows from such a state. -/
theorem no_duplicate_submissions :
    (∀ u : SubmitUiState, SubmitReachable u → u.pending ≤ 1)
    ∧ (∀ u v : SubmitUiState, u.sending = true → SubmitStep u v → v.pending ≤ u.pending) := by
  refine ⟨fun u h => (submitReachable_inv u h).1, ?_⟩
  intro u v hsend hstep
  cases hstep with
  | clickStarts hdis =>
    simp only [submitButtonDisabled] at hdis
    rw [hsend] at hdis
    exact absurd hdis (by decide)
  | clickRejected hdis => exact Nat.le_refl _
  | settle hp =>
    show u.pending - 1 ≤ u.pending
    omega

/-- Witness for C8 at concrete states: after one started submission the
in-flight count is 1, and from that state settling does not increase it. -/
theorem no_duplicate_submissions_witness :
    ({ sending := true, pending := 1 } : SubmitUiState).pending ≤ 1
    ∧ ({ sending := false, pending := 0 } : SubmitUiState).pending
        ≤ ({ sending := true, pending := 1 } : SubmitUiState).pending :=
  ⟨no_duplicate_submissions.1 { sending := true, pending := 1 }
      (SubmitReachable.step SubmitReachable.init
        (SubmitStep.clickStarts { sending := false, pending := 0 } rfl)),
   no_duplicate_submissions.2 { sending := true, pending := 1 }
      { sending := false, pending := 0 } rfl
      (SubmitStep.settle { sending := true, pending := 1 } (by decide))⟩

/-- C9.  The token in the order payload built by the client is the
constant hardcoded at App.tsx line 87, independent of any configured
secret; only the api/order.js proxy substitutes the environment-supplied
secret into the forwarded body. -/
theorem client_token_hardcoded :
    (∀ (tg : Option TgUser) (nm ph ad cm : String) (c : Cart) (pl : OrderPayload),
        buildPayload tg nm ph ad cm c = some pl → pl.token = "Kjhytccb18@")
    ∧ (∀ (u tok : String) (body fwd : OrderPayload),
        handlerForwardedBody ⟨some u, some tok⟩ body = some fwd → fwd.token = tok) := by
  refine ⟨?_, ?_⟩
  · intro tg nm ph ad cm c pl h
    simp only [buildPayload] at h
    rcases hm : mapOrderItems (cartItems c) with _ | items
    · rw [hm] at h
      simp at h
    · rw [hm] at h
      rcases ht : total c with _ | t
      · rw [ht] at h
        simp at h
      · rw [ht] at h
        simp only [Option.some_bind, Option.some.injEq] at h
        rw [← h]
        rfl
  · intro u tok body fwd h
    simp only [handlerForwardedBody, Option.some.injEq] at h
    rw [← h]

/-- Witness for C9 at concrete inputs: the payload built from the sample
cart carries the hardcoded constant, and the proxy with secret
`s3cret` forwards `s3cret` instead. -/
theorem client_token_hardcoded_witness :
    samplePayload.token = "Kjhytccb18@"
    ∧ ({ samplePayload with token := "s3cret" } : OrderPayload).token = "s3cret" :=
  ⟨client_token_hardcoded.1 none "Иван" "79990001122" "улица Ленина, 5" "" sampleCart
      samplePayload (by decide),
   client_token_hardcoded.2 "https://example.invalid" "s3cret" samplePayload
      { samplePayload with token := "s3cret" } rfl⟩

theorem foldl_lineTotal_start_none :
    ∀ l : List CartItem,
      l.foldl (fun s it => s.bind (fun x => (lineTotal it).map (fun y => x + y))) none = none := by
  intro l
  induction l with
  | nil => rfl
  | cons it rest ih => simpa using ih

theorem foldl_lineTotal_none_of_mem :
    ∀ (l : List CartItem) (a : Option Int) (it : CartItem), it ∈ l → it.product = none →
      l.foldl (fun s it => s.bind (fun x => (lineTotal it).map (fun y => x + y))) a = none := by
  intro l
  induction l with
  | nil => intro a it h; exact absurd h (List.not_mem_nil _)
  | cons b rest ih =>
    intro a it h hprod
    rcases List.mem_cons.mp h with h1 | h1
    · subst h1
      have hstep : a.bind (fun x => (lineTotal it).map (fun y => x + y)) = none := by
        cases a with
        | none => rfl
        | some x => simp [lineTotal, hprod]
      simp only [List.foldl_cons, hstep]
      exact foldl_lineTotal_start_none rest
    · simp only [List.foldl_cons]
      exact ih _ it h1 hprod

/-- C10.  At the public cart interface, `setQty` with a positive
quantity on an id with no entry inserts an entry with that quantity but
no product snapshot, the subtotal of the resulting cart is not a
well-defined number, and carts built through `addToCart` alone always
carry a snapshot in every entry. -/
theorem setQty_absent_drops_snapshot :
    (∀ (c : Cart) (id : String) (q : Int), 0 < q → cartGet c id = none →
        cartGet (setQty c id q) id = some (CartItem.mk none q))
    ∧ (∀ (c : Cart) (id : String) (q : Int), 0 < q → cartGet c id = none →
        total (setQty c id q) = none)
    ∧ (∀ (ps : List Product) (c : Cart), (∀ it ∈ cartItems c, it.product.isSome) →
        ∀ it ∈ cartItems (ps.foldl addToCart c), it.product.isSome) := by
  have hset : ∀ (c : Cart) (id : String) (q : Int), 0 < q → cartGet c id = none →
      setQty c id q = cartSet c id (CartItem.mk none q) := by
    intro c id q hq habs
    simp only [setQty, if_neg (by omega : ¬ q ≤ 0), habs]
    rfl
  refine ⟨?_, ?_, ?_⟩
  · intro c id q hq habs
    rw [hset c id q hq habs]
    exact cartGet_cartSet_self c id _
  · intro c id q hq habs
    have hget : cartGet (setQty c id q) id = some (CartItem.mk none q) := by
      rw [hset c id q hq habs]
      exact cartGet_cartSet_self c id _
    have hmem : CartItem.mk none q ∈ cartItems (setQty c id q) := cartGet_mem hget
    exact foldl_lineTotal_none_of_mem _ _ _ hmem rfl
  · intro ps
    induction ps with
    | nil => intro c h; simpa using h
    | cons p rest ih =>
      intro c h
      apply ih
      intro it hit
      rcases List.mem_map.mp hit with ⟨e, he, rfl⟩
      rcases mem_cartSet he with h1 | h1
      · exact h _ (List.mem_map_of_mem _ h1)
      · rw [h1]
        rfl

/-- Witness for C10 at concrete inputs: on the empty cart, `setQty`
with quantity 1 on an unknown id stores an entry without a snapshot, the
subtotal is undefined, and the singleton `addToCart` cart keeps its
snapshot. -/
theorem setQty_absent_drops_snapshot_witness :
    cartGet (setQty [] "ghost" 1) "ghost" = some (CartItem.mk none 1)
    ∧ total (setQty [] "ghost" 1) = none
    ∧ (CartItem.mk (some sampleProduct) 1).product.isSome :=
  ⟨setQty_absent_drops_snapshot.1 [] "ghost" 1 (by decide) rfl,
   setQty_absent_drops_snapshot.2.1 [] "ghost" 1 (by decide) rfl,
   setQty_absent_drops_snapshot.2.2 [sampleProduct] [] (by simp [cartItems])
     (CartItem.mk (some sampleProduct) 1) (by decide)⟩

/-- Whether the catalog load attempt ends in the catch branch or in a
response-level error (App.tsx lines 159-162 and 176-182). -/
def loadFailed (net : NetBehavior ProductsResponse) : Bool :=
  match fetchWithTimeout 8000 net with
  | Except.error _ => true
  | Except.ok d => d.error != ""

/-- Counterexample to C6 as stated: a fresh cache (written at 0, read at
1 ms, far inside the 10-minute TTL) was already shown, yet when the
network fetch fails the catch branch still sets the error, the error is
surfaced, and the content gate hides the catalog list. -/
theorem catalog_error_suppression_counterexample :
    (catalogLoadEffect (some (CachedCatalog.mk 0 [sampleProduct])) 1
        ⟨100, Except.error ⟨"TypeError", "Failed to fetch"⟩⟩).error = "Failed to fetch"
    ∧ errorSurfaced (catalogLoadEffect (some (CachedCatalog.mk 0 [sampleProduct])) 1
        ⟨100, Except.error ⟨"TypeError", "Failed to fetch"⟩⟩) = true
    ∧ contentRendered (catalogLoadEffect (some (CachedCatalog.mk 0 [sampleProduct])) 1
        ⟨100, Except.error ⟨"TypeError", "Failed to fetch"⟩⟩) = false := by
  decide

/-- C6 amended: when the catalog fetch fails, the load error is
surfaced unconditionally — even when a fresh cache was already read and
shown — and the content area that displays the catalog list is hidden by
the render guard; the `products` state does keep the cached list, but it
is no longer rendered. -/
theorem catalog_error_surfaced_unconditionally :
    ∀ (cc : CachedCatalog) (now : Int) (net : NetBehavior ProductsResponse),
      now - cc.ts < PRODUCTS_CACHE_TTL_MS →
      loadFailed net = true →
      errorSurfaced (catalogLoadEffect (some cc) now net) = true
      ∧ contentRendered (catalogLoadEffect (some cc) now net) = false
      ∧ (catalogLoadEffect (some cc) now net).products = cc.products := by
  intro cc now net hfresh hfail
  rw [loadFailed] at hfail
  rcases hres : fetchWithTimeout 8000 net with e | d
  · simp only [catalogLoadEffect, if_pos hfresh, hres, errorSurfaced, contentRendered]
    by_cases habort : e.name = "AbortError"
    · simp [habort, slowServerMsg]
    · by_cases hmsg : e.message = ""
      · simp [habort, hmsg, genericLoadErrorMsg]
      · simp [habort, hmsg]
  · rw [hres] at hfail
    simp only [ne_eq, bne_iff_ne] at hfail
    simp only [catalogLoadEffect, if_pos hfresh, hres, errorSurfaced, contentRendered,
      if_pos (show d.error ≠ "" from hfail)]
    simp [hfail]

/-- Witness for the amended C6 at concrete inputs: fresh cache shown,
network rejection — the error is surfaced, the content is hidden, and
the products state still holds the cached list. -/
theorem catalog_error_surfaced_unconditionally_witness :
    errorSurfaced (catalogLoadEffect (some (CachedCatalog.mk 0 [sampleProduct])) 1
        ⟨100, Except.error ⟨"Error", "timeout"⟩⟩) = true
    ∧ contentRendered (catalogLoadEffect (some (CachedCatalog.mk 0 [sampleProduct])) 1
        ⟨100, Except.error ⟨"Error", "timeout"⟩⟩) = false
    ∧ (catalogLoadEffect (some (CachedCatalog.mk 0 [sampleProduct])) 1
        ⟨100, Except.error ⟨"Error", "timeout"⟩⟩).products = [sampleProduct] :=
  catalog_error_surfaced_unconditionally (CachedCatalog.mk 0 [sampleProduct]) 1
    ⟨100, Except.error ⟨"Error", "timeout"⟩⟩ (by decide) (by decide)

/-- Counterexample to C7 as stated: with a network latency of 10^9 ms —
far beyond every timeout constant appearing in the source (8 or 25
seconds) — the order submission still completes with the success toast
rather than a timeout `SubmitError`, because the POST at App.tsx line
278 is a plain `fetch` with no abort signal. -/
theorem order_timeout_counterexample :
    (submitOrder sampleState none ⟨1000000000, Except.ok ⟨true, 200, ""⟩⟩).state.toast
      = some (Toast.mk ToastType.success submitSuccessMsg)
    ∧ (submitOrder sampleState none ⟨1000000000, Except.ok ⟨true, 200, ""⟩⟩).requests = 1 := by
  decide

/-- C7 amended: only the catalog fetch is bounded by the fixed 8000 ms
timeout of `fetchWithTimeout` (a latency at or above it yields the abort
rejection); the order-submission request has no timeout at all — its
result depends only on the network outcome, never on the latency — and a
submission performs at most one request, with no automatic retry. -/
theorem order_submission_has_no_timeout :
    (∀ (s : AppState) (tg : Option TgUser) (net1 net2 : NetBehavior HttpResponse),
        net1.outcome = net2.outcome → submitOrder s tg net1 = submitOrder s tg net2)
    ∧ (∀ net : NetBehavior ProductsResponse, 8000 ≤ net.latencyMs →
        fetchWithTimeout 8000 net = Except.error abortError)
    ∧ (∀ (s : AppState) (tg : Option TgUser) (net : NetBehavior HttpResponse),
        (submitOrder s tg net).requests ≤ 1) := by
  refine ⟨?_, ?_, ?_⟩
  · intro s tg net1 net2 h
    simp only [submitOrder, fetchPlain, h]
  · intro net h
    simp only [fetchWithTimeout, if_pos h]
  · intro s tg net
    rcases hv : validateCheckout s.customerName s.phone s.address s.cart with _ | e
    · rcases hb : buildPayload tg s.customerName s.phone s.address s.comment s.cart with _ | pl
      · simp [submitOrder, hv, hb]
      · rcases hf : fetchPlain net with e | res
        · simp [submitOrder, hv, hb, hf]
        · rcases hre : responseError res with _ | m
          · simp [submitOrder, hv, hb, hf, hre]
          · simp [submitOrder, hv, hb, hf, hre]
    · simp [submitOrder, hv]

/-- Witness for the amended C7 at concrete inputs: two networks with
equal outcomes but latencies 0 and 10^9 give identical submission
results; at latency 8000 the catalog fetch aborts; and the sample
submission performs one request. -/
theorem order_submission_has_no_timeout_witness :
    submitOrder sampleState none ⟨0, Except.ok ⟨true, 200, ""⟩⟩
      = submitOrder sampleState none ⟨1000000000, Except.ok ⟨true, 200, ""⟩⟩
    ∧ fetchWithTimeout 8000 (⟨8000, Except.ok ⟨"", [sampleProduct]⟩⟩ : NetBehavior ProductsResponse)
      = Except.error abortError
    ∧ (submitOrder sampleState none ⟨0, Except.ok ⟨true, 200, ""⟩⟩).requests ≤ 1 :=
  ⟨order_submission_has_no_timeout.1 sampleState none ⟨0, Except.ok ⟨true, 200, ""⟩⟩
      ⟨1000000000, Except.ok ⟨true, 200, ""⟩⟩ rfl,
   order_submission_has_no_timeout.2.1 ⟨8000, Except.ok ⟨"", [sampleProduct]⟩⟩ (by decide),
   order_submission_has_no_timeout.2.2 sampleState none ⟨0, Except.ok ⟨true, 200, ""⟩⟩⟩

end Farm
